import Mathlib

/-!
Verification development for the Deception Detection Engine of the
claude-flow verification subsystem (`src/verification/index.js`, class
`DeceptionDetector`).

The JavaScript source is shallowly embedded here:
 - JS numbers are modelled as exact rationals `ℚ` (all constants in the
   source are decimal literals, and every comparison/arithmetic step
   relevant to the properties below is exact in `ℚ`); epoch-millisecond
   timestamps are modelled as `ℤ`.
 - The free-form `evidence` object is modelled as an optional association
   list `Option (List (String × ℚ))` (the only structurally significant
   evidence keys, `duration` and `otherAgentQuality`, carry numeric
   values; key count stands for `Object.keys(e).length`). JS truthiness
   of a numeric field is `≠ 0`; an absent object / absent key is falsy.
 - The mutable per-agent history (`analysisHistory : Map`) is modelled by
   explicit state passing: a `HistoryMap` function updated by
   `runAnalyzeAgentPattern`.
-/

/-- Performance part of a claimed outcome (`performance` in `TaskOutcome`). -/
structure Performance where
  improvement : ℚ
  metrics : List (String × ℚ)
  deriving DecidableEq

/-- Quality part of a claimed outcome (`quality` in `TaskOutcome`). -/
structure Quality where
  codeQuality : ℚ
  documentation : ℚ
  maintainability : ℚ
  deriving DecidableEq

/-- The `TaskOutcome` interface of the source. -/
structure TaskOutcome where
  success : Bool
  testsPass : Bool
  noErrors : Bool
  performance : Performance
  quality : Quality
  deriving DecidableEq

/-- The `AgentReport` interface of the source.  The optional `truthScore`
field is never read by the detector and is omitted. -/
structure AgentReport where
  id : String
  agentId : String
  taskId : String
  claimedOutcome : TaskOutcome
  evidence : Option (List (String × ℚ))
  timestamp : ℤ
  verified : Bool
  conflicts : List String
  deriving DecidableEq

/-- JS `Math.min` on two rationals, written out so that it reduces in the
kernel (Mathlib's `min` goes through a `LinearOrder` field that blocks
`decide`). -/
def jsMin (a b : ℚ) : ℚ := if a ≤ b then a else b

/-- JS `Math.max` on two rationals (see `jsMin`). -/
def jsMax (a b : ℚ) : ℚ := if a ≤ b then b else a

/-- First-match association-list lookup, modelling JS property access on
the evidence object. -/
def lookupKey : List (String × ℚ) → String → Option ℚ
  | [], _ => none
  | (k, v) :: rest, key => if k = key then some v else lookupKey rest key

/-- Optional-chaining access `report.evidence?.key`: `none` when the
evidence object itself is absent. -/
def evLookup (e : Option (List (String × ℚ))) (key : String) : Option ℚ :=
  match e with
  | none => none
  | some l => lookupKey l key

/-- Check 1 of `detectFabrication`: suspiciously perfect results
(`testsPass && noErrors && success && quality.codeQuality > 0.95`). -/
def fabPerfect (r : AgentReport) : Bool :=
  r.claimedOutcome.testsPass && r.claimedOutcome.noErrors && r.claimedOutcome.success &&
    decide (r.claimedOutcome.quality.codeQuality > 0.95)

/-- Check 2 of `detectFabrication`: lack of detailed evidence
(`!report.evidence || Object.keys(report.evidence).length < 3`). -/
def fabInsufficient (r : AgentReport) : Bool :=
  match r.evidence with
  | none => true
  | some l => decide (l.length < 3)

/-- Check 3 of `detectFabrication`: unrealistic timing.  The source guards
with `report.timestamp && report.evidence?.duration` (both JS-truthy)
before testing `report.evidence.duration < 1000`. -/
def fabFast (r : AgentReport) : Bool :=
  decide (r.timestamp ≠ 0) &&
    (match evLookup r.evidence "duration" with
     | some d => decide (d ≠ 0) && decide (d < 1000)
     | none => false)

/-- Check 4 of `detectFabrication`: unrealistic performance improvement
(`performance.improvement > 0.5`). -/
def fabImprov (r : AgentReport) : Bool :=
  decide (r.claimedOutcome.performance.improvement > 0.5)

/-- Result type of `detectFabrication`. -/
structure FabricationResult where
  isFabricated : Bool
  confidence : ℚ
  indicators : List String
  deriving DecidableEq

/-- `DeceptionDetector.detectFabrication`: the four checks accumulate
indicator labels and fixed score deltas (+0.3, +0.2, +0.25, +0.25 in
source order); `isFabricated` is `score > 0.5` and `confidence` is
`min(score, 1.0)`. -/
def detectFabrication (report : AgentReport) : FabricationResult :=
  let indicators :=
    (if fabPerfect report then ["suspiciously-perfect-results"] else []) ++
    (if fabInsufficient report then ["insufficient-evidence"] else []) ++
    (if fabFast report then ["unrealistically-fast-completion"] else []) ++
    (if fabImprov report then ["unrealistic-performance-improvement"] else [])
  let fabricationScore : ℚ :=
    (if fabPerfect report then 0.3 else 0) + (if fabInsufficient report then 0.2 else 0) +
    (if fabFast report then 0.25 else 0) + (if fabImprov report then 0.25 else 0)
  { isFabricated := decide (fabricationScore > 0.5)
    confidence := jsMin fabricationScore 1
    indicators := indicators }

/-- A baseline concrete report used to build test inputs. -/
def baseReport : AgentReport :=
  { id := "r0"
    agentId := "agent-0"
    taskId := "task-0"
    claimedOutcome :=
      { success := false
        testsPass := false
        noErrors := false
        performance := { improvement := 0, metrics := [] }
        quality := { codeQuality := 0.5, documentation := 0.5, maintainability := 0.5 } }
    evidence := none
    timestamp := 1
    verified := false
    conflicts := [] }

/-- A "perfect" claimed outcome used by several concrete inputs below. -/
def perfectOutcome : TaskOutcome :=
  { success := true
    testsPass := true
    noErrors := true
    performance := { improvement := 0, metrics := [] }
    quality := { codeQuality := 0.99, documentation := 0.5, maintainability := 0.5 } }

/-- Concrete input for the boundary counterexample: a report matching all
of Scenario A's outcome fields whose sparse evidence map nevertheless
contains a small `duration`. -/
def repDurBoundary : AgentReport :=
  { baseReport with
    claimedOutcome := perfectOutcome
    evidence := some [("duration", 500)]
    timestamp := 1000 }

/-- Concrete input with all Scenario A fields and absent evidence. -/
def repNoEvidence : AgentReport :=
  { baseReport with claimedOutcome := perfectOutcome, evidence := none, timestamp := 1000 }

/-- Concrete input for the C4 counterexample: evidence contains the key
`duration` with value `0 < 1000`, which is JS-falsy. -/
def repDurZero : AgentReport :=
  { baseReport with evidence := some [("duration", 0)], timestamp := 1000 }

/-- `analyzeSuccessRates`: discrepancy of the claimed success rate above
the 0.7 "realistic" baseline, floored at 0 (`Math.max(0, rate - 0.7)`). -/
def analyzeSuccessRates (reports : List AgentReport) : ℚ :=
  let claimedSuccesses := (reports.filter (·.claimedOutcome.success)).length
  let claimedRate : ℚ := (claimedSuccesses : ℚ) / (reports.length : ℚ)
  jsMax 0 (claimedRate - 0.7)

/-- `analyzePerformanceClaims`: mean claimed improvement above the 0.15
baseline, floored at 0. -/
def analyzePerformanceClaims (reports : List AgentReport) : ℚ :=
  let avgImprovement : ℚ :=
    (reports.map (·.claimedOutcome.performance.improvement)).sum / (reports.length : ℚ)
  jsMax 0 (avgImprovement - 0.15)

/-- `analyzeQualityClaims`: mean claimed `codeQuality` above the 0.7
baseline, floored at 0. -/
def analyzeQualityClaims (reports : List AgentReport) : ℚ :=
  let avgQuality : ℚ :=
    (reports.map (·.claimedOutcome.quality.codeQuality)).sum / (reports.length : ℚ)
  jsMax 0 (avgQuality - 0.7)

/-- The population variance of the claimed improvements, as computed by
`analyzeConsistency` before it takes the square root. -/
def consistencyVariance (reports : List AgentReport) : ℚ :=
  let improvements := reports.map (·.claimedOutcome.performance.improvement)
  let avgImprovement : ℚ := improvements.sum / (improvements.length : ℚ)
  (improvements.map (fun v => (v - avgImprovement) ^ 2)).sum / (improvements.length : ℚ)

/-- Whether the `inconsistency` check fires.  The source computes
`consistency = Math.max(0, 1 - 2 * Math.sqrt(variance))` (with
`consistency = 1.0` for fewer than 2 reports) and fires on
`consistency < 0.5`.  Since `max(0, 1 - 2 * s) < 1/2 ↔ s > 1/4` for the
nonnegative square root `s`, and `s > 1/4 ↔ variance > 1/16`, the firing
condition is expressed exactly by the rational inequality
`variance > 1/16`, avoiding the irrational square root. -/
def inconsistencyFires (reports : List AgentReport) : Bool :=
  decide (2 ≤ reports.length) && decide (consistencyVariance reports > 1 / 16)

/-- Result of `detectIssueHiding`. -/
structure IssueHidingResult where
  isHiding : Bool
  hiddenCount : ℤ
  deriving DecidableEq

/-- JS `Math.round`: round half away from zero toward positive infinity,
i.e. `⌊x + 1/2⌋`, written with the executable `Rat.floor`. -/
def jsRound (q : ℚ) : ℤ := Rat.floor (q + 1 / 2)

/-- `detectIssueHiding`: needs ≥ 10 reports; fires when the rate of
`noErrors = true` exceeds 0.9, estimating
`hiddenCount = round((rate - 0.65) * n)`. -/
def detectIssueHiding (reports : List AgentReport) : IssueHidingResult :=
  if reports.length < 10 then ⟨false, 0⟩
  else
    let noErrorReports := (reports.filter (·.claimedOutcome.noErrors)).length
    let noErrorRate : ℚ := (noErrorReports : ℚ) / (reports.length : ℚ)
    if noErrorRate > 0.9 then ⟨true, jsRound ((noErrorRate - 0.65) * (reports.length : ℚ))⟩
    else ⟨false, 0⟩

/-- `detectCherryPicking`: needs ≥ 5 reports; fires when over 70% of the
reports have all three quality dimensions above 0.7 with passing tests,
and over 50% report an incomplete (1–3 entries) metrics object.  The
source's loop counters are expressed as filter lengths; its truthiness
guard `if (performance.metrics)` is always true for the (non-optional)
metrics object and is dropped. -/
def detectCherryPicking (reports : List AgentReport) : Bool :=
  if reports.length < 5 then false
  else
    let favorableOnlyCount := (reports.filter (fun r =>
      decide (r.claimedOutcome.quality.codeQuality > 0.7) &&
      decide (r.claimedOutcome.quality.documentation > 0.7) &&
      decide (r.claimedOutcome.quality.maintainability > 0.7) &&
      r.claimedOutcome.testsPass)).length
    let incompleteMetricsCount := (reports.filter (fun r =>
      decide (r.claimedOutcome.performance.metrics.length > 0) &&
      decide (r.claimedOutcome.performance.metrics.length < 4))).length
    decide ((favorableOnlyCount : ℚ) / (reports.length : ℚ) > 0.7) &&
      decide ((incompleteMetricsCount : ℚ) / (reports.length : ℚ) > 0.5)

/-- Stable insertion of a report into a timestamp-sorted list: an earlier
list element goes first on ties, matching JS's stable `sort`. -/
def insertByTime (x : AgentReport) : List AgentReport → List AgentReport
  | [] => [x]
  | y :: ys => if x.timestamp ≤ y.timestamp then x :: y :: ys else y :: insertByTime x ys

/-- Stable sort of reports by ascending `timestamp` (the unique sorted
order of the numeric JS comparator up to ties, with ties kept stable). -/
def sortByTime (l : List AgentReport) : List AgentReport := l.foldr insertByTime []

/-- Append a report to its task's group, or open a new group at the end;
mirrors insertion-ordered `Map` grouping by `taskId`. -/
def addToGroups (groups : List (String × List AgentReport)) (r : AgentReport) :
    List (String × List AgentReport) :=
  match groups with
  | [] => [(r.taskId, [r])]
  | (t, g) :: rest =>
    if t = r.taskId then (t, g ++ [r]) :: rest else (t, g) :: addToGroups rest r

/-- Group reports by `taskId`, preserving insertion order of both the
groups and the reports within each group. -/
def groupByTask (reports : List AgentReport) : List (String × List AgentReport) :=
  reports.foldl addToGroups []

/-- Adjacent-pair contradiction count of one timestamp-sorted task group:
a `success` flip counts 1 and an improvement jump above 0.3 counts 1, per
adjacent pair (the source's two independent `if`s in the `i`-loop). -/
def contradictionPairs : List AgentReport → ℕ
  | a :: b :: rest =>
    (if a.claimedOutcome.success ≠ b.claimedOutcome.success then 1 else 0) +
    (if |a.claimedOutcome.performance.improvement - b.claimedOutcome.performance.improvement| > 0.3
      then 1 else 0) +
    contradictionPairs (b :: rest)
  | _ => 0

/-- Result of `detectContradictions`. -/
structure ContradictionResult where
  hasContradictions : Bool
  count : ℕ
  deriving DecidableEq

/-- `detectContradictions`: needs ≥ 3 reports; groups by `taskId`, sorts
each group of more than one report by timestamp, and counts adjacent
contradictions. -/
def detectContradictions (reports : List AgentReport) : ContradictionResult :=
  if reports.length < 3 then ⟨false, 0⟩
  else
    let taskGroups := groupByTask reports
    let count := (taskGroups.map (fun g =>
      if g.2.length > 1 then contradictionPairs (sortByTime g.2) else 0)).sum
    ⟨decide (count > 0), count⟩

/-- Result of `detectGaslightingPatterns`. -/
structure GasPatternResult where
  hasGaslighting : Bool
  hasDiscrediting : Bool
  contradictionCount : ℕ
  deriving DecidableEq

/-- Per-report systematic-negative-assessment test of
`detectGaslightingPatterns`: own `codeQuality > 0.8` while
`evidence.otherAgentQuality` is JS-truthy and `< 0.6`. -/
def gasNegAssessment (r : AgentReport) : Bool :=
  decide (r.claimedOutcome.quality.codeQuality > 0.8) &&
    (match evLookup r.evidence "otherAgentQuality" with
     | some q => decide (q ≠ 0) && decide (q < 0.6)
     | none => false)

/-- `detectGaslightingPatterns`: needs ≥ 5 reports; counts
systematic negative assessments plus each report's own `conflicts`
length, and derives the gaslighting / discrediting flags. -/
def detectGaslightingPatterns (reports : List AgentReport) : GasPatternResult :=
  if reports.length < 5 then ⟨false, false, 0⟩
  else
    let systematicNegativeAssessments := (reports.filter gasNegAssessment).length
    let contradictionCount := systematicNegativeAssessments +
      (reports.map (fun r => if r.conflicts.length > 0 then r.conflicts.length else 0)).sum
    let discreditingRate : ℚ := (systematicNegativeAssessments : ℚ) / (reports.length : ℚ)
    ⟨decide (contradictionCount > 2),
      decide (discreditingRate > 0.4) || decide (contradictionCount > 7),
      contradictionCount⟩

/-- Check 1 of `detectFabricationPattern`'s per-report pass.  Unlike the
standalone `fabPerfect` it does NOT require `success`. -/
def patPerfect (r : AgentReport) : Bool :=
  decide (r.claimedOutcome.quality.codeQuality > 0.95) &&
    r.claimedOutcome.testsPass && r.claimedOutcome.noErrors

/-- Check 2 of `detectFabricationPattern`'s per-report pass.  Unlike the
standalone `fabFast` it does NOT test `report.timestamp` for truthiness. -/
def patFast (r : AgentReport) : Bool :=
  match evLookup r.evidence "duration" with
  | some d => decide (d ≠ 0) && decide (d < 1000)
  | none => false

/-- Number of the four fabrication-pattern indicators a single report
fires (checks 3 and 4 coincide with the standalone `fabInsufficient` and
`fabImprov`). -/
def patternIndicators (r : AgentReport) : ℕ :=
  (if patPerfect r then 1 else 0) + (if patFast r then 1 else 0) +
  (if fabInsufficient r then 1 else 0) + (if fabImprov r then 1 else 0)

/-- Result of `detectFabricationPattern`. -/
structure FabricationPatternResult where
  isFabricated : Bool
  inconsistencyScore : ℚ
  deriving DecidableEq

/-- `detectFabricationPattern`: needs ≥ 5 reports; averages the fired
indicators over `4 * n` total checks and fires when the average
exceeds 0.4. -/
def detectFabricationPattern (reports : List AgentReport) : FabricationPatternResult :=
  if reports.length < 5 then ⟨false, 0⟩
  else
    let fabricationIndicators := (reports.map patternIndicators).sum
    let totalIndicators := 4 * reports.length
    let inconsistencyScore : ℚ := (fabricationIndicators : ℚ) / (totalIndicators : ℚ)
    ⟨decide (inconsistencyScore > 0.4), inconsistencyScore⟩

/-- A diagnostic value stored in `DeceptionAnalysis.evidence`. -/
inductive EvVal where
  /-- A plain numeric diagnostic. -/
  | num (q : ℚ)
  /-- A boolean flag diagnostic. -/
  | flag (b : Bool)
  /-- The `inconsistencyScore` diagnostic `1 - max(0, 1 - 2 * √v)`,
  represented symbolically by the rational variance `v` it is computed
  from (the value itself is irrational in general). -/
  | ofVariance (v : ℚ)
  deriving DecidableEq

/-- The `DeceptionAnalysis` record of the source. -/
structure DeceptionAnalysis where
  reportId : Option String
  agentId : String
  truthScore : ℚ
  deceptionDetected : Bool
  deceptionType : List String
  confidence : ℚ
  evidence : List (String × EvVal)
  recommendations : List String
  deriving DecidableEq

/-- `calculateOverallTruthScore`: starts at 1.0, subtracts a fixed
penalty per fired label, clamps to [0,1] via
`Math.max(0, Math.min(1, score))`.  The source receives the whole
analysis (and an unused `reports` argument) but reads only
`deceptionType`. -/
def calculateOverallTruthScore (deceptionType : List String) : ℚ :=
  let score : ℚ := 1 -
    (if deceptionType.contains "overconfidence" then 0.25 else 0) -
    (if deceptionType.contains "exaggeration" then 0.2 else 0) -
    (if deceptionType.contains "quality-inflation" then 0.15 else 0) -
    (if deceptionType.contains "inconsistency" then 0.2 else 0) -
    (if deceptionType.contains "issue_hiding" then 0.2 else 0) -
    (if deceptionType.contains "cherry_picking" then 0.15 else 0) -
    (if deceptionType.contains "fabrication" then 0.3 else 0) -
    (if deceptionType.contains "impossible_claims" then 0.25 else 0) -
    (if deceptionType.contains "contradictory_statements" then 0.2 else 0)
  jsMax 0 (jsMin 1 score)

/-- `generateRecommendations`: deterministic string templates per fired
label, with a critical-escalation line when `confidence > 0.8`.  The
source reads only `deceptionType` and the (already clamped)
`confidence` of the analysis. -/
def generateRecommendations (deceptionType : List String) (confidence : ℚ) : List String :=
  (if deceptionType.contains "overconfidence" then
    ["Implement stricter verification for this agent",
     "Require additional evidence for success claims",
     "Implement additional verification for this agent"] else []) ++
  (if deceptionType.contains "exaggeration" then
    ["Cross-verify performance claims with actual metrics",
     "Implement automated performance testing"] else []) ++
  (if deceptionType.contains "quality-inflation" then
    ["Add mandatory code review by independent agent",
     "Implement automated quality assessment"] else []) ++
  (if deceptionType.contains "inconsistency" then
    ["Flag for manual review due to inconsistent reporting",
     "Increase monitoring frequency"] else []) ++
  (if deceptionType.contains "issue_hiding" then
    ["Require detailed issue reporting",
     "Implement automated error detection"] else []) ++
  (if deceptionType.contains "cherry_picking" then
    ["Require comprehensive metrics reporting",
     "Mandate reporting of both positive and negative metrics"] else []) ++
  (if deceptionType.contains "fabrication" then
    ["Require third-party verification for all claims",
     "Implement evidence validation system"] else []) ++
  (if deceptionType.contains "impossible_claims" then
    ["Require third-party verification for performance claims",
     "Flag unrealistic improvements automatically"] else []) ++
  (if deceptionType.contains "contradictory_statements" then
    ["Implement immutable audit trail for agent reports",
     "Cross-reference with historical reports"] else []) ++
  (if deceptionType.contains "gaslighting" || deceptionType.contains "discrediting_others" then
    ["Implement multi-agent consensus verification",
     "Monitor for systematic disagreement patterns"] else []) ++
  (if confidence > 0.8 then
    ["CRITICAL: High confidence deception detected - escalate immediately"] else [])

/-- The neutral analysis `analyzeAgentPattern` initializes and returns
unchanged for an empty report list. -/
def neutralAnalysis (agentId : String) : DeceptionAnalysis :=
  { reportId := none
    agentId := agentId
    truthScore := 1
    deceptionDetected := false
    deceptionType := []
    confidence := 0
    evidence := []
    recommendations := [] }

/-- Condition of the `overconfidence` branch of `analyzeAgentPattern`. -/
def overconfidenceFires (reports : List AgentReport) : Bool :=
  decide (analyzeSuccessRates reports > 0.15)

/-- Condition of the `exaggeration` branch of `analyzeAgentPattern`. -/
def exaggerationFires (reports : List AgentReport) : Bool :=
  decide (analyzePerformanceClaims reports > 0.1)

/-- Condition of the `impossible_claims` branch of
`analyzeAgentPattern` (same exaggeration metric, higher threshold). -/
def impossibleClaimsFires (reports : List AgentReport) : Bool :=
  decide (analyzePerformanceClaims reports > 0.5)

/-- Condition of the `quality-inflation` branch of
`analyzeAgentPattern`. -/
def qualityInflationFires (reports : List AgentReport) : Bool :=
  decide (analyzeQualityClaims reports > 0.15)

/-- Condition of the `issue_hiding` branch of `analyzeAgentPattern`. -/
def issueHidingFires (reports : List AgentReport) : Bool :=
  (detectIssueHiding reports).isHiding

/-- Condition of the `contradictory_statements` branch of
`analyzeAgentPattern`. -/
def contradictionsFire (reports : List AgentReport) : Bool :=
  (detectContradictions reports).hasContradictions

/-- Condition of the `fabrication` branch of `analyzeAgentPattern`. -/
def fabricationPatternFires (reports : List AgentReport) : Bool :=
  (detectFabricationPattern reports).isFabricated

/-- Condition of the `gaslighting` branch of `analyzeAgentPattern`. -/
def gaslightingFires (reports : List AgentReport) : Bool :=
  (detectGaslightingPatterns reports).hasGaslighting

/-- Condition of the `discrediting_others` branch of
`analyzeAgentPattern`. -/
def discreditingFires (reports : List AgentReport) : Bool :=
  (detectGaslightingPatterns reports).hasDiscrediting

/-- The labels `analyzeAgentPattern` pushes onto `deceptionType`, in
source (detection) order. -/
def patternDeceptionTypes (reports : List AgentReport) : List String :=
  (if overconfidenceFires reports then ["overconfidence"] else []) ++
  (if exaggerationFires reports then ["exaggeration"] else []) ++
  (if impossibleClaimsFires reports then ["impossible_claims"] else []) ++
  (if qualityInflationFires reports then ["quality-inflation"] else []) ++
  (if inconsistencyFires reports then ["inconsistency"] else []) ++
  (if issueHidingFires reports then ["issue_hiding"] else []) ++
  (if detectCherryPicking reports then ["cherry_picking"] else []) ++
  (if contradictionsFire reports then ["contradictory_statements"] else []) ++
  (if fabricationPatternFires reports then ["fabrication"] else []) ++
  (if gaslightingFires reports then ["gaslighting"] else []) ++
  (if discreditingFires reports then ["discrediting_others"] else [])

/-- The diagnostic evidence fields `analyzeAgentPattern` merges, in
source order. -/
def patternEvidence (reports : List AgentReport) : List (String × EvVal) :=
  (if overconfidenceFires reports then
    [("successRateDiscrepancy", EvVal.num (analyzeSuccessRates reports))] else []) ++
  (if exaggerationFires reports then
    [("performanceExaggeration", EvVal.num (analyzePerformanceClaims reports))] else []) ++
  (if impossibleClaimsFires reports then
    [("impossiblePerformanceGains", EvVal.flag true)] else []) ++
  (if qualityInflationFires reports then
    [("qualityInflation", EvVal.num (analyzeQualityClaims reports))] else []) ++
  (if inconsistencyFires reports then
    [("inconsistencyScore", EvVal.ofVariance (consistencyVariance reports))] else []) ++
  (if issueHidingFires reports then
    [("hiddenIssuesCount", EvVal.num ((detectIssueHiding reports).hiddenCount : ℚ))] else []) ++
  (if detectCherryPicking reports then
    [("incompleteMetricsReporting", EvVal.flag true)] else []) ++
  (if contradictionsFire reports then
    [("contradictionCount", EvVal.num ((detectContradictions reports).count : ℚ))] else []) ++
  (if fabricationPatternFires reports then
    [("unrealisticResults", EvVal.flag true),
     ("evidenceInconsistency", EvVal.num ((detectFabricationPattern reports).inconsistencyScore))]
    else []) ++
  (if gaslightingFires reports then
    [("contradictionsWithOtherAgents",
      EvVal.num ((detectGaslightingPatterns reports).contradictionCount : ℚ))] else []) ++
  (if discreditingFires reports then
    [("systematicDisagreement", EvVal.flag true)] else [])

/-- The `deceptionDetected` flag: every firing branch sets it except
`impossible_claims`, whose branch omits the assignment in the source. -/
def patternDetected (reports : List AgentReport) : Bool :=
  overconfidenceFires reports || exaggerationFires reports || qualityInflationFires reports ||
  inconsistencyFires reports || issueHidingFires reports || detectCherryPicking reports ||
  contradictionsFire reports || fabricationPatternFires reports || gaslightingFires reports ||
  discreditingFires reports

/-- The raw (pre-clamp) confidence: the sum of the fired branches' fixed
deltas, in source order. -/
def patternRawConfidence (reports : List AgentReport) : ℚ :=
  (if overconfidenceFires reports then 0.3 else 0) +
  (if exaggerationFires reports then 0.25 else 0) +
  (if impossibleClaimsFires reports then 0.2 else 0) +
  (if qualityInflationFires reports then 0.2 else 0) +
  (if inconsistencyFires reports then 0.25 else 0) +
  (if issueHidingFires reports then 0.3 else 0) +
  (if detectCherryPicking reports then 0.25 else 0) +
  (if contradictionsFire reports then 0.3 else 0) +
  (if fabricationPatternFires reports then 0.35 else 0) +
  (if gaslightingFires reports then 0.3 else 0) +
  (if discreditingFires reports then 0.35 else 0)

/-- `DeceptionDetector.analyzeAgentPattern`, as a pure function of the
agent id and report list (the source additionally appends the result to
the per-agent history; that side effect is modelled separately by
`runAnalyzeAgentPattern`).  Empty input short-circuits to the neutral
analysis; otherwise the eleven checks fire in source order, each
appending its label, merging its evidence fields and adding its
confidence delta; the truth score is derived from the fired labels, the
confidence is clamped at 1, and the recommendations are generated from
the fired labels and the clamped confidence. -/
def analyzeAgentPattern (agentId : String) (reports : List AgentReport) : DeceptionAnalysis :=
  if reports.length = 0 then neutralAnalysis agentId
  else
    { reportId := none
      agentId := agentId
      truthScore := calculateOverallTruthScore (patternDeceptionTypes reports)
      deceptionDetected := patternDetected reports
      deceptionType := patternDeceptionTypes reports
      confidence := jsMin (patternRawConfidence reports) 1
      evidence := patternEvidence reports
      recommendations := generateRecommendations (patternDeceptionTypes reports)
        (jsMin (patternRawConfidence reports) 1) }

/-- The detector's mutable `analysisHistory : Map<string, DeceptionAnalysis[]>`,
modelled as a total function with `[]` as the absent-key default. -/
abbrev HistoryMap := String → List DeceptionAnalysis

/-- The history of a fresh detector. -/
def emptyHistory : HistoryMap := fun _ => []

/-- The stateful `analyzeAgentPattern` call: computes the analysis and,
unless the report list was empty (in which case the source returns before
reaching the store step), appends it to the agent's history. -/
def runAnalyzeAgentPattern (history : HistoryMap) (agentId : String)
    (reports : List AgentReport) : HistoryMap × DeceptionAnalysis :=
  let analysis := analyzeAgentPattern agentId reports
  if reports.length = 0 then (history, analysis)
  else (fun a => if a = agentId then history a ++ [analysis] else history a, analysis)

/-- `DeceptionDetector.getAgentHistory`:
`this.analysisHistory.get(agentId) || []`. -/
def getAgentHistory (history : HistoryMap) (agentId : String) : List DeceptionAnalysis :=
  history agentId

/-- Result of `detectGaslighting`. -/
structure GaslightingResult where
  isGaslighting : Bool
  confidence : ℚ
  contradictions : List String
  contradictionsWithOtherAgents : ℕ
  systematicDisagreement : Bool
  deriving DecidableEq

/-- The contradiction strings one other-agent same-task report adds in
`detectGaslighting`'s loop, in source branch order (each push is paired
with a counter increment, so the count is the total length). -/
def gasContradictions (report other : AgentReport) : List String :=
  (if report.claimedOutcome.success ≠ other.claimedOutcome.success then
    ["Contradicts " ++ other.agentId ++ " on task success"] else []) ++
  (if |report.claimedOutcome.performance.improvement -
      other.claimedOutcome.performance.improvement| > 0.3 then
    ["Large discrepancy in performance claims vs " ++ other.agentId] else []) ++
  (if report.claimedOutcome.quality.codeQuality > 0.8 ∧
      other.claimedOutcome.quality.codeQuality < 0.6 then
    ["Systematically disagrees with " ++ other.agentId ++ "\x27s quality assessment"] else [])

/-- `DeceptionDetector.detectGaslighting`: compares one report against
other agents' reports on the same task. -/
def detectGaslighting (report : AgentReport) (otherReports : List AgentReport) :
    GaslightingResult :=
  let sameTaskReports := otherReports.filter
    (fun r => r.taskId == report.taskId && r.agentId != report.agentId)
  let contradictions := (sameTaskReports.map (gasContradictions report)).flatten
  let contradictionCount := (sameTaskReports.map
    (fun o => (gasContradictions report o).length)).sum
  { isGaslighting := decide (contradictions.length ≥ 2)
    confidence := jsMin ((contradictions.length : ℚ) * 0.3) 1
    contradictions := contradictions
    contradictionsWithOtherAgents := contradictionCount
    systematicDisagreement := decide (contradictionCount ≥ min sameTaskReports.length 8) }

/-- Insertion of an integer into a sorted list (ascending numeric JS
sort of the timestamp array in `detectCollusion`). -/
def insertSorted (x : ℤ) : List ℤ → List ℤ
  | [] => [x]
  | y :: ys => if x ≤ y then x :: y :: ys else y :: insertSorted x ys

/-- Ascending sort of integers. -/
def sortAsc (l : List ℤ) : List ℤ := l.foldr insertSorted []

/-- Count of adjacent pairs of a sorted timestamp list lying within
5000 ms (`detectCollusion`'s synchronized-reporting loop). -/
def countSyncPairs : List ℤ → ℕ
  | a :: b :: rest => (if b - a < 5000 then 1 else 0) + countSyncPairs (b :: rest)
  | _ => 0

/-- Whether all of a (task group's) quality scores are one identical
value exceeding 0.9 (`uniqueScores.size === 1 && qualityScores[0] > 0.9`;
only reached for groups of ≥ 2 reports, and a nonempty list has a unique
score exactly when all entries equal the first). -/
def identicalQuality (qs : List ℚ) : Bool :=
  match qs with
  | [] => false
  | q :: rest => rest.all (fun x => decide (x = q)) && decide (q > 0.9)

/-- The identical-claims increments a single task group of ≥ 2 reports
contributes in `detectCollusion`: 1 if all members claim
`success ∧ noErrors ∧ improvement > 0.3`, plus 1 if all members report
one identical `codeQuality > 0.9`. -/
def collusionGroupIdentical (g : List AgentReport) : ℕ :=
  (if g.all (·.claimedOutcome.success) && g.all (·.claimedOutcome.noErrors) &&
      g.all (fun r => decide (r.claimedOutcome.performance.improvement > 0.3)) then 1 else 0) +
  (if identicalQuality (g.map (·.claimedOutcome.quality.codeQuality)) then 1 else 0)

/-- The synchronized-pair count a single task group contributes. -/
def collusionGroupSync (g : List AgentReport) : ℕ :=
  countSyncPairs (sortAsc (g.map (·.timestamp)))

/-- Evidence part of a `detectCollusion` result. -/
structure CollusionEvidence where
  synchronizedReporting : Bool
  identicalFalseClaims : ℕ
  deriving DecidableEq

/-- Result of `detectCollusion`. -/
structure CollusionResult where
  isCollusion : Bool
  confidence : ℚ
  evidence : CollusionEvidence
  deriving DecidableEq

/-- `DeceptionDetector.detectCollusion`: needs ≥ 4 reports; groups by
`taskId` and, skipping groups of fewer than 2 reports (`continue`),
accumulates synchronized-pair and identical-claims counts;
`synchronizedReporting = syncCount > 2`,
`isCollusion = identicalClaimsCount > 2 ∨ synchronizedReporting`,
`confidence = min((identicalClaimsCount + syncCount) * 0.2, 1)`. -/
def detectCollusion (allReports : List AgentReport) : CollusionResult :=
  if allReports.length < 4 then ⟨false, 0, ⟨false, 0⟩⟩
  else
    let taskGroups := groupByTask allReports
    let synchronizedCount := (taskGroups.map (fun g =>
      if g.2.length < 2 then 0 else collusionGroupSync g.2)).sum
    let identicalClaimsCount := (taskGroups.map (fun g =>
      if g.2.length < 2 then 0 else collusionGroupIdentical g.2)).sum
    let synchronizedReporting := decide (synchronizedCount > 2)
    { isCollusion := decide (identicalClaimsCount > 2) || synchronizedReporting
      confidence := jsMin (((identicalClaimsCount + synchronizedCount : ℕ) : ℚ) * 0.2) 1
      evidence := { synchronizedReporting := synchronizedReporting
                    identicalFalseClaims := identicalClaimsCount } }

/-- Concrete report claiming success (otherwise the baseline). -/
def repSuccessOnly : AgentReport :=
  { baseReport with
    claimedOutcome := { baseReport.claimedOutcome with success := true } }

/-- Concrete other-agent report on a different task. -/
def repOtherTask : AgentReport :=
  { baseReport with id := "r1", agentId := "agent-1", taskId := "task-1" }

/-- A report with a perfect outcome except `success = false` (sparse
evidence, nonzero timestamp): the pattern check counts its perfect-results
indicator, the standalone `detectFabrication` does not. -/
def repPatternOnly : AgentReport :=
  { baseReport with claimedOutcome := { perfectOutcome with success := false } }

/-- Five copies of `repPatternOnly`. -/
def cexPatternReports : List AgentReport :=
  [repPatternOnly, repPatternOnly, repPatternOnly, repPatternOnly, repPatternOnly]

/-- A report with a perfect successful outcome, sparse evidence, nonzero
timestamp. -/
def repAllPerfect : AgentReport :=
  { baseReport with claimedOutcome := perfectOutcome }

/-- Five copies of `repAllPerfect`. -/
def wPatternReports : List AgentReport :=
  [repAllPerfect, repAllPerfect, repAllPerfect, repAllPerfect, repAllPerfect]

/-- Claimed outcome with the identical `codeQuality = 0.95` of
Scenario D (and no other suspicious claim). -/
def colOutcome : TaskOutcome :=
  { baseReport.claimedOutcome with
    quality := { codeQuality := 0.95, documentation := 0.5, maintainability := 0.5 } }

/-- Scenario D corpus, first task, first reporter. -/
def repCol1 : AgentReport :=
  { baseReport with
    id := "c1"
    agentId := "a1"
    taskId := "t1"
    claimedOutcome := colOutcome
    timestamp := 0 }

/-- Scenario D corpus, first task, second reporter (1000 ms later). -/
def repCol2 : AgentReport :=
  { baseReport with
    id := "c2"
    agentId := "a2"
    taskId := "t1"
    claimedOutcome := colOutcome
    timestamp := 1000 }

/-- Scenario D corpus, second task, first reporter. -/
def repCol3 : AgentReport :=
  { baseReport with
    id := "c3"
    agentId := "a3"
    taskId := "t2"
    claimedOutcome := colOutcome
    timestamp := 100000 }

/-- Scenario D corpus, second task, second reporter (1000 ms later). -/
def repCol4 : AgentReport :=
  { baseReport with
    id := "c4"
    agentId := "a4"
    taskId := "t2"
    claimedOutcome := colOutcome
    timestamp := 101000 }

/-- The Scenario D corpus. -/
def cexCollusionReports : List AgentReport := [repCol1, repCol2, repCol3, repCol4]

theorem jsMin_le_right (a b : ℚ) : jsMin a b ≤ b := by
  unfold jsMin; split
  · assumption
  · exact le_refl b

theorem jsMin_eq_min (a b : ℚ) : jsMin a b = min a b := by
  unfold jsMin
  split
  · exact (min_eq_left (by assumption)).symm
  · exact (min_eq_right (le_of_not_le (by assumption))).symm

theorem jsMax_eq_max (a b : ℚ) : jsMax a b = max a b := by
  unfold jsMax
  split
  · exact (max_eq_right (by assumption)).symm
  · exact (max_eq_left (le_of_not_le (by assumption))).symm

/-- C3 counterexample: a report with `testsPass`, `noErrors`, `success`,
`codeQuality = 0.99`, `improvement ≤ 0.5` and a fewer-than-3-key evidence
map — but the map carries `duration = 500`, so `detectFabrication` scores
0.3 + 0.2 + 0.25 = 0.75 and reports fabrication, contradicting the
claimed `confidence = 0.5`, `isFabricated = false`. -/
theorem detectFabrication_boundary_cex :
    repDurBoundary.claimedOutcome.testsPass = true ∧
    repDurBoundary.claimedOutcome.noErrors = true ∧
    repDurBoundary.claimedOutcome.success = true ∧
    repDurBoundary.claimedOutcome.quality.codeQuality = 0.99 ∧
    repDurBoundary.claimedOutcome.performance.improvement ≤ 0.5 ∧
    repDurBoundary.evidence = some [("duration", 500)] ∧
    (detectFabrication repDurBoundary).confidence = 0.75 ∧
    (detectFabrication repDurBoundary).isFabricated = true := by
  refine ⟨rfl, rfl, rfl, rfl, by norm_num [repDurBoundary, perfectOutcome, baseReport], rfl, ?_, ?_⟩ <;>
    norm_num [detectFabrication, fabPerfect, fabInsufficient, fabFast, fabImprov, evLookup,
      lookupKey, jsMin, repDurBoundary, perfectOutcome, baseReport]

/-- C3 (amended): for a report with `testsPass`, `noErrors`, `success`,
`codeQuality = 0.99`, `improvement ≤ 0.5`, whose evidence is absent or has
fewer than 3 keys *and carries no nonzero `duration` below 1000*, the
accumulated score is exactly 0.30 + 0.20 = 0.50, which does not exceed the
strict `> 0.5` threshold: `confidence = 0.5` and `isFabricated = false`. -/
theorem detectFabrication_boundary (report : AgentReport)
    (hT : report.claimedOutcome.testsPass = true)
    (hN : report.claimedOutcome.noErrors = true)
    (hS : report.claimedOutcome.success = true)
    (hQ : report.claimedOutcome.quality.codeQuality = 0.99)
    (hI : report.claimedOutcome.performance.improvement ≤ 0.5)
    (hE : report.evidence = none ∨
      ∃ l, report.evidence = some l ∧ l.length < 3 ∧
        ∀ d, lookupKey l "duration" = some d → d = 0 ∨ 1000 ≤ d) :
    (detectFabrication report).confidence = 0.5 ∧
    (detectFabrication report).isFabricated = false := by
  have hPerf : fabPerfect report = true := by
    simp [fabPerfect, hT, hN, hS, hQ]; norm_num
  have hIns : fabInsufficient report = true := by
    rcases hE with h | ⟨l, hl, hlen, _⟩
    · simp [fabInsufficient, h]
    · simp [fabInsufficient, hl, hlen]
  have hFast : fabFast report = false := by
    rcases hE with h | ⟨l, hl, _, hdur⟩
    · simp [fabFast, evLookup, h]
    · rcases hL : lookupKey l "duration" with _ | d
      · simp [fabFast, evLookup, hl, hL]
      · rcases hdur d hL with h0 | hge
        · simp [fabFast, evLookup, hl, hL, h0]
        · simp [fabFast, evLookup, hl, hL, not_lt.mpr hge]
  have hImp : fabImprov report = false := by
    simp only [fabImprov, decide_eq_false_iff_not, not_lt]
    exact hI
  constructor <;>
    norm_num [detectFabrication, hPerf, hIns, hFast, hImp, jsMin]

/-- C3 witness: Scenario A itself — the theorem applied to the concrete
all-perfect report with absent evidence. -/
theorem detectFabrication_boundary_witness :
    repNoEvidence.evidence = none ∧
    (detectFabrication repNoEvidence).confidence = 0.5 ∧
    (detectFabrication repNoEvidence).isFabricated = false :=
  ⟨rfl, detectFabrication_boundary repNoEvidence rfl rfl rfl rfl
    (by norm_num [repNoEvidence, perfectOutcome, baseReport]) (Or.inl rfl)⟩

/-- C4 counterexample: `repDurZero`'s evidence maps `duration` to `0`,
which is strictly less than 1000, yet `detectFabrication` does not append
`"unrealistically-fast-completion"` (the source first tests the value for
JS truthiness) and the score gets no +0.25: only the insufficient-evidence
indicator fires, for a confidence of 0.2. -/
theorem fast_completion_cex :
    repDurZero.evidence = some [("duration", 0)] ∧ ((0 : ℚ) < 1000) ∧
    (detectFabrication repDurZero).indicators = ["insufficient-evidence"] ∧
    (detectFabrication repDurZero).confidence = 0.2 := by
  refine ⟨rfl, by norm_num, ?_, ?_⟩ <;>
    norm_num [detectFabrication, fabPerfect, fabInsufficient, fabFast, fabImprov, evLookup,
      lookupKey, jsMin, repDurZero, baseReport]

/-- C4 (amended): for a report with nonzero (JS-truthy) `timestamp` whose
evidence maps `duration` to a nonzero value strictly below 1000, the
timing check fires: `"unrealistically-fast-completion"` is appended and
the accumulated score's timing summand is 0.25. -/
theorem fast_completion_fires (report : AgentReport) (d : ℚ)
    (ht : report.timestamp ≠ 0)
    (hd : evLookup report.evidence "duration" = some d)
    (hd0 : d ≠ 0) (hlt : d < 1000) :
    fabFast report = true ∧
    "unrealistically-fast-completion" ∈ (detectFabrication report).indicators ∧
    (detectFabrication report).confidence =
      jsMin ((if fabPerfect report then 0.3 else 0) + (if fabInsufficient report then 0.2 else 0) +
        0.25 + (if fabImprov report then 0.25 else 0)) 1 := by
  have hFast : fabFast report = true := by
    simp [fabFast, hd, ht, hd0, hlt]
  refine ⟨hFast, ?_, ?_⟩
  · simp [detectFabrication, hFast]
  · simp [detectFabrication, hFast]

/-- C4 witness: the amended theorem applied to a concrete report with
`timestamp = 1000` and `duration = 500`. -/
theorem fast_completion_fires_witness :
    repDurBoundary.timestamp ≠ 0 ∧
    (fabFast repDurBoundary = true ∧
      "unrealistically-fast-completion" ∈ (detectFabrication repDurBoundary).indicators ∧
      (detectFabrication repDurBoundary).confidence =
        jsMin ((if fabPerfect repDurBoundary then 0.3 else 0) +
          (if fabInsufficient repDurBoundary then 0.2 else 0) +
          0.25 + (if fabImprov repDurBoundary then 0.25 else 0)) 1) :=
  ⟨by norm_num [repDurBoundary, baseReport],
    fast_completion_fires repDurBoundary 500 (by norm_num [repDurBoundary, baseReport])
      (by simp [repDurBoundary, baseReport, evLookup, lookupKey])
      (by norm_num) (by norm_num)⟩

/-- If-then-else with a zero alternative is nonnegative when the
then-value is. -/
theorem iteNonneg (c : Prop) [Decidable c] (a : ℚ) (h : 0 ≤ a) : 0 ≤ if c then a else 0 := by
  split
  · exact h
  · exact le_refl 0

/-- The raw confidence is a sum of nonnegative deltas. -/
theorem patternRawConfidence_nonneg (reports : List AgentReport) :
    0 ≤ patternRawConfidence reports := by
  unfold patternRawConfidence
  refine add_nonneg (add_nonneg (add_nonneg (add_nonneg (add_nonneg (add_nonneg (add_nonneg
    (add_nonneg (add_nonneg (add_nonneg ?_ ?_) ?_) ?_) ?_) ?_) ?_) ?_) ?_) ?_) ?_ <;>
    exact iteNonneg _ _ (by norm_num)

/-- The clamp `max(0, min(1, s))` lands in `[0, 1]`. -/
theorem clamp01_bounds (s : ℚ) : 0 ≤ jsMax 0 (jsMin 1 s) ∧ jsMax 0 (jsMin 1 s) ≤ 1 := by
  rw [jsMax_eq_max, jsMin_eq_min]
  exact ⟨le_max_left 0 _, max_le (by norm_num) (min_le_left 1 _)⟩

/-- The overall truth score is clamped into `[0, 1]`. -/
theorem calculateOverallTruthScore_bounds (deceptionType : List String) :
    0 ≤ calculateOverallTruthScore deceptionType ∧
      calculateOverallTruthScore deceptionType ≤ 1 :=
  clamp01_bounds _

/-- C5: `analyzeAgentPattern` on an empty report list returns the neutral
analysis — `truthScore = 1.0`, `deceptionDetected = false`,
`confidence = 0`, and empty `deceptionType`, `evidence` and
`recommendations` — via the short-circuit return, before any sub-check
runs. -/
theorem analyzeAgentPattern_empty (agentId : String) :
    (analyzeAgentPattern agentId []).truthScore = 1 ∧
    (analyzeAgentPattern agentId []).deceptionDetected = false ∧
    (analyzeAgentPattern agentId []).confidence = 0 ∧
    (analyzeAgentPattern agentId []).deceptionType = [] ∧
    (analyzeAgentPattern agentId []).evidence = [] ∧
    (analyzeAgentPattern agentId []).recommendations = [] :=
  ⟨rfl, rfl, rfl, rfl, rfl, rfl⟩

/-- C6: for every agent id and report list, the analysis's `confidence`
and `truthScore` lie in `[0, 1]`, even when the raw delta sum exceeds 1:
the confidence is clamped by `min(·, 1)` over a sum of nonnegative
deltas, and the truth score by `max(0, min(1, ·))`. -/
theorem analyzeAgentPattern_bounds (agentId : String) (reports : List AgentReport) :
    (0 ≤ (analyzeAgentPattern agentId reports).confidence ∧
      (analyzeAgentPattern agentId reports).confidence ≤ 1) ∧
    (0 ≤ (analyzeAgentPattern agentId reports).truthScore ∧
      (analyzeAgentPattern agentId reports).truthScore ≤ 1) := by
  unfold analyzeAgentPattern
  split
  · refine ⟨⟨le_refl 0, ?_⟩, ⟨?_, le_refl 1⟩⟩ <;> norm_num [neutralAnalysis]
  · refine ⟨⟨?_, ?_⟩, ?_⟩
    · show 0 ≤ jsMin (patternRawConfidence reports) 1
      rw [jsMin_eq_min]
      exact le_min (patternRawConfidence_nonneg reports) (by norm_num)
    · exact jsMin_le_right _ 1
    · exact calculateOverallTruthScore_bounds _

/-- The stateful call returns the pure analysis of its report-list
argument, whatever the stored history. -/
theorem runAnalyzeAgentPattern_snd (history : HistoryMap) (agentId : String)
    (reports : List AgentReport) :
    (runAnalyzeAgentPattern history agentId reports).2 = analyzeAgentPattern agentId reports := by
  unfold runAnalyzeAgentPattern
  split <;> rfl

/-- C7: two successive `analyzeAgentPattern` calls with the same agent id
and the same report list (the second running on the history produced by
the first) yield analyses with identical `deceptionType` sequences,
identical `truthScore` and identical `confidence`: each call's result
depends only on its report-list argument, never on stored history. -/
theorem analyzeAgentPattern_idempotent (history : HistoryMap) (agentId : String)
    (reports : List AgentReport) :
    ((runAnalyzeAgentPattern (runAnalyzeAgentPattern history agentId reports).1
        agentId reports).2).deceptionType =
      ((runAnalyzeAgentPattern history agentId reports).2).deceptionType ∧
    ((runAnalyzeAgentPattern (runAnalyzeAgentPattern history agentId reports).1
        agentId reports).2).truthScore =
      ((runAnalyzeAgentPattern history agentId reports).2).truthScore ∧
    ((runAnalyzeAgentPattern (runAnalyzeAgentPattern history agentId reports).1
        agentId reports).2).confidence =
      ((runAnalyzeAgentPattern history agentId reports).2).confidence := by
  rw [runAnalyzeAgentPattern_snd, runAnalyzeAgentPattern_snd]
  exact ⟨rfl, rfl, rfl⟩

/-- C10: an `analyzeAgentPattern` call with an empty report list leaves
the per-agent history unchanged — the source returns before reaching the
store step — so `getAgentHistory` agrees before and after for every
agent id. -/
theorem analyzeAgentPattern_empty_frame (history : HistoryMap) (agentId a : String) :
    getAgentHistory (runAnalyzeAgentPattern history agentId []).1 a =
      getAgentHistory history a := rfl

/-- C8: appending a report with `success = false` (and
`performance.improvement = 0`) to a nonempty all-success report list
never increases the overconfidence discrepancy
`max(0, successRate - 0.7)` computed by `analyzeSuccessRates`. -/
theorem successDiscrepancy_monotone (reports : List AgentReport) (x : AgentReport)
    (hne : reports ≠ [])
    (hall : ∀ r ∈ reports, r.claimedOutcome.success = true)
    (hx : x.claimedOutcome.success = false)
    (_hximp : x.claimedOutcome.performance.improvement = 0) :
    analyzeSuccessRates (reports ++ [x]) ≤ analyzeSuccessRates reports := by
  have hfil : reports.filter (·.claimedOutcome.success) = reports :=
    List.filter_eq_self.mpr (by intro a ha; simpa using hall a ha)
  have hfilx : (reports ++ [x]).filter (·.claimedOutcome.success) = reports := by
    rw [List.filter_append, hfil]
    simp [hx]
  have hn0 : reports.length ≠ 0 := by simpa [List.length_eq_zero] using hne
  have hn : (0 : ℚ) < (reports.length : ℚ) := by exact_mod_cast Nat.pos_of_ne_zero hn0
  simp only [analyzeSuccessRates]
  rw [hfil, hfilx, jsMax_eq_max, jsMax_eq_max]
  refine max_le_max le_rfl (sub_le_sub_right ?_ _)
  rw [div_self (ne_of_gt hn)]
  rw [div_le_one (by rw [List.length_append]; push_cast; linarith)]
  rw [List.length_append]
  push_cast
  linarith

/-- C8 witness: the theorem applied to the singleton all-success list and
the failing baseline report. -/
theorem successDiscrepancy_monotone_witness :
    [repSuccessOnly] ≠ ([] : List AgentReport) ∧
    analyzeSuccessRates ([repSuccessOnly] ++ [baseReport]) ≤
      analyzeSuccessRates [repSuccessOnly] :=
  ⟨by simp,
    successDiscrepancy_monotone [repSuccessOnly] baseReport (by simp)
      (by intro r hr; rw [List.mem_singleton.mp hr]; rfl) rfl rfl⟩

/-- C9: when no report in `otherReports` shares the report's `taskId`
while coming from a different agent, `detectGaslighting` returns empty
`contradictions`, `contradictionsWithOtherAgents = 0`,
`isGaslighting = false`, `confidence = 0`, and — because the
systematic-disagreement threshold `min(sameTaskCount, 8)` is 0 —
`systematicDisagreement = true`. -/
theorem detectGaslighting_noSameTask (report : AgentReport) (otherReports : List AgentReport)
    (h : ∀ r ∈ otherReports, r.taskId = report.taskId → r.agentId = report.agentId) :
    (detectGaslighting report otherReports).contradictions = [] ∧
    (detectGaslighting report otherReports).contradictionsWithOtherAgents = 0 ∧
    (detectGaslighting report otherReports).isGaslighting = false ∧
    (detectGaslighting report otherReports).confidence = 0 ∧
    (detectGaslighting report otherReports).systematicDisagreement = true := by
  have hfil : otherReports.filter
      (fun r => r.taskId == report.taskId && r.agentId != report.agentId) = [] := by
    rw [List.filter_eq_nil_iff]
    intro a ha
    simp only [Bool.and_eq_true, beq_iff_eq, bne_iff_ne, ne_eq, not_and]
    intro ht
    simp [h a ha ht]
  simp only [detectGaslighting]
  rw [hfil]
  norm_num [jsMin]

/-- C9 witness: the theorem applied to the baseline report and one other
report on a different task. -/
theorem detectGaslighting_noSameTask_witness :
    repOtherTask.taskId ≠ baseReport.taskId ∧
    ((detectGaslighting baseReport [repOtherTask]).contradictions = [] ∧
      (detectGaslighting baseReport [repOtherTask]).contradictionsWithOtherAgents = 0 ∧
      (detectGaslighting baseReport [repOtherTask]).isGaslighting = false ∧
      (detectGaslighting baseReport [repOtherTask]).confidence = 0 ∧
      (detectGaslighting baseReport [repOtherTask]).systematicDisagreement = true) :=
  ⟨by simp [repOtherTask, baseReport],
    detectGaslighting_noSameTask baseReport [repOtherTask]
      (by
        intro r hr ht
        rw [List.mem_singleton.mp hr] at ht
        exact absurd ht (by simp [repOtherTask, baseReport]))⟩

/-- Membership in a conditional singleton-or-empty list. -/
theorem mem_ite_list (a : String) (c : Prop) [Decidable c] (l : List String) :
    (a ∈ if c then l else []) ↔ c ∧ a ∈ l := by
  split
  · exact (and_iff_right (by assumption)).symm
  · simp [*]

/-- On a report claiming `success` with a JS-truthy timestamp, the
per-report fabrication-pattern indicator count coincides with the number
of indicators the standalone `detectFabrication` fires. -/
theorem patternIndicators_eq_standalone (r : AgentReport)
    (hs : r.claimedOutcome.success = true) (ht : r.timestamp ≠ 0) :
    patternIndicators r = (detectFabrication r).indicators.length := by
  have hp : patPerfect r = fabPerfect r := by
    simp only [patPerfect, fabPerfect, hs, Bool.and_true, Bool.true_and]
    cases h1 : r.claimedOutcome.testsPass <;>
      cases h2 : r.claimedOutcome.noErrors <;>
        cases h3 : decide (r.claimedOutcome.quality.codeQuality > 0.95) <;> rfl
  have hf : patFast r = fabFast r := by
    unfold fabFast patFast
    rw [decide_eq_true ht, Bool.true_and]
  have hlen : (detectFabrication r).indicators.length =
      (if fabPerfect r then 1 else 0) + (if fabInsufficient r then 1 else 0) +
      (if fabFast r then 1 else 0) + (if fabImprov r then 1 else 0) := by
    simp only [detectFabrication]
    split_ifs <;> rfl
  rw [hlen]
  unfold patternIndicators
  rw [hp, hf]
  split_ifs <;> rfl

/-- C2 (amended): for ≥ 5 reports all claiming `success` with JS-truthy
timestamps, the fabrication check of `analyzeAgentPattern` counts exactly
the indicators the standalone `detectFabrication` fires per report
(one point each, unweighted), and the `fabrication` label fires iff the
total indicator count over `4 * n` checks exceeds 0.4.  (In general the
pattern check differs from §4.1: its perfect-results check omits the
`success` conjunct and its fast-completion check omits the timestamp
truthiness test — see the counterexample.) -/
theorem fabricationPattern_refines (agentId : String) (reports : List AgentReport)
    (h5 : 5 ≤ reports.length)
    (hs : ∀ r ∈ reports, r.claimedOutcome.success = true)
    (ht : ∀ r ∈ reports, r.timestamp ≠ 0) :
    (reports.map patternIndicators).sum =
      (reports.map (fun r => (detectFabrication r).indicators.length)).sum ∧
    ((detectFabricationPattern reports).isFabricated = true ↔
      (((reports.map (fun r => (detectFabrication r).indicators.length)).sum : ℚ) /
        ((4 * reports.length : ℕ) : ℚ) > 0.4)) ∧
    ("fabrication" ∈ (analyzeAgentPattern agentId reports).deceptionType ↔
      (detectFabricationPattern reports).isFabricated = true) := by
  have hmap : reports.map patternIndicators =
      reports.map (fun r => (detectFabrication r).indicators.length) :=
    List.map_congr_left (fun r hr => patternIndicators_eq_standalone r (hs r hr) (ht r hr))
  have hnot5 : ¬ reports.length < 5 := by omega
  have hne : ¬ reports.length = 0 := by omega
  refine ⟨congrArg List.sum hmap, ?_, ?_⟩
  · simp only [detectFabricationPattern, if_neg hnot5, decide_eq_true_eq]
    rw [hmap]
  · simp only [analyzeAgentPattern, if_neg hne]
    simp [patternDeceptionTypes, List.mem_append, mem_ite_list, fabricationPatternFires]

/-- C2 counterexample: on five reports with `success = false`,
`testsPass`, `noErrors` and `codeQuality = 0.99`, the fabrication-pattern
pass counts 10 indicators (2 per report — its perfect-results check does
not require `success`) while the standalone `detectFabrication` fires
only 5 (1 per report), and the pattern check fires even though the
standalone count averaged over `4 * n = 20` checks is `0.25 ≤ 0.4`:
the two counting rules are not the same. -/
theorem fabricationPattern_refines_cex :
    (cexPatternReports.map patternIndicators).sum = 10 ∧
    (cexPatternReports.map (fun r => (detectFabrication r).indicators.length)).sum = 5 ∧
    (detectFabricationPattern cexPatternReports).isFabricated = true ∧
    ¬ ((((cexPatternReports.map (fun r => (detectFabrication r).indicators.length)).sum : ℚ) /
        ((4 * cexPatternReports.length : ℕ) : ℚ)) > 0.4) := by
  refine ⟨?_, ?_, ?_, ?_⟩ <;>
    norm_num [cexPatternReports, repPatternOnly, perfectOutcome, baseReport,
      patternIndicators, patPerfect, patFast, fabPerfect, fabInsufficient, fabFast, fabImprov,
      detectFabrication, detectFabricationPattern, evLookup, jsMin]

/-- C2 witness: the amended theorem applied to five all-success reports
with nonzero timestamps. -/
theorem fabricationPattern_refines_witness :
    5 ≤ wPatternReports.length ∧
    ((wPatternReports.map patternIndicators).sum =
      (wPatternReports.map (fun r => (detectFabrication r).indicators.length)).sum ∧
    ((detectFabricationPattern wPatternReports).isFabricated = true ↔
      (((wPatternReports.map (fun r => (detectFabrication r).indicators.length)).sum : ℚ) /
        ((4 * wPatternReports.length : ℕ) : ℚ) > 0.4)) ∧
    ("fabrication" ∈ (analyzeAgentPattern "agent-0" wPatternReports).deceptionType ↔
      (detectFabricationPattern wPatternReports).isFabricated = true)) :=
  ⟨by norm_num [wPatternReports],
    fabricationPattern_refines "agent-0" wPatternReports (by norm_num [wPatternReports])
      (by
        intro r hr
        simp only [wPatternReports, List.mem_cons, List.not_mem_nil, or_false, or_self] at hr
        subst hr
        rfl)
      (by
        intro r hr
        simp only [wPatternReports, List.mem_cons, List.not_mem_nil, or_false, or_self] at hr
        subst hr
        simp [repAllPerfect, baseReport])⟩

/-- Two timestamps within 2000 ms form exactly one synchronized pair
(their sorted gap is below the 5000 ms window). -/
theorem countSyncPairs_pair (a b : ℤ) (h : |a - b| ≤ 2000) :
    countSyncPairs (sortAsc [a, b]) = 1 := by
  rw [abs_le] at h
  have h2 : sortAsc [a, b] = if a ≤ b then [a, b] else [b, a] := by
    simp [sortAsc, insertSorted]
  rw [h2]
  split_ifs with h1 <;> simp [countSyncPairs] <;> omega

/-- A two-element constant quality list above 0.9 passes the
identical-quality test. -/
theorem identicalQuality_pair (q : ℚ) (h : q > 0.9) : identicalQuality [q, q] = true := by
  simp [identicalQuality, h]

/-- A task group whose members all report one identical quality above 0.9
contributes 1 or 2 identical-claims increments. -/
theorem collusionGroupIdentical_bounds (g : List AgentReport)
    (hq : identicalQuality (g.map (·.claimedOutcome.quality.codeQuality)) = true) :
    1 ≤ collusionGroupIdentical g ∧ collusionGroupIdentical g ≤ 2 := by
  unfold collusionGroupIdentical
  rw [hq]
  split_ifs <;> simp_all

/-- Grouping four reports listed pairwise by task yields the two task
groups in insertion order. -/
theorem groupByTask_two_pairs (r1 r2 r3 r4 : AgentReport)
    (h12 : r1.taskId = r2.taskId) (h34 : r3.taskId = r4.taskId)
    (h13 : r1.taskId ≠ r3.taskId) :
    groupByTask [r1, r2, r3, r4] =
      [(r1.taskId, [r1, r2]), (r3.taskId, [r3, r4])] := by
  have h14 : r1.taskId ≠ r4.taskId := fun h => h13 (h.trans h34.symm)
  have s2 : addToGroups [(r1.taskId, [r1])] r2 = [(r1.taskId, [r1, r2])] := by
    simp only [addToGroups]
    rw [if_pos h12]
    rfl
  have s3 : addToGroups [(r1.taskId, [r1, r2])] r3 =
      [(r1.taskId, [r1, r2]), (r3.taskId, [r3])] := by
    simp only [addToGroups]
    rw [if_neg h13]
  have s4 : addToGroups [(r1.taskId, [r1, r2]), (r3.taskId, [r3])] r4 =
      [(r1.taskId, [r1, r2]), (r3.taskId, [r3, r4])] := by
    simp only [addToGroups]
    rw [if_neg h14, if_pos h34]
    rfl
  show addToGroups (addToGroups (addToGroups (addToGroups [] r1) r2) r3) r4 = _
  rw [show addToGroups [] r1 = [(r1.taskId, [r1])] from rfl, s2, s3, s4]

/-- C1 (amended): for a corpus `[r1, r2, r3, r4]` of two task groups of
two reports each, where each group reports the identical
`codeQuality = 0.95` and timestamps within 2000 ms, `detectCollusion`
counts exactly one synchronized pair per group — 2 in total, which does
NOT exceed the strict `> 2` threshold — so
`synchronizedReporting = false`; each group contributes at least the
identical-quality increment, so `identicalFalseClaims ≥ 2`, and
`isCollusion` holds iff `identicalFalseClaims > 2` (i.e. iff at least one
group additionally has all members claiming
`success ∧ noErrors ∧ improvement > 0.3`). -/
theorem detectCollusion_two_sync_pairs (r1 r2 r3 r4 : AgentReport)
    (h12 : r1.taskId = r2.taskId) (h34 : r3.taskId = r4.taskId)
    (h13 : r1.taskId ≠ r3.taskId)
    (hq1 : r1.claimedOutcome.quality.codeQuality = 0.95)
    (hq2 : r2.claimedOutcome.quality.codeQuality = 0.95)
    (hq3 : r3.claimedOutcome.quality.codeQuality = 0.95)
    (hq4 : r4.claimedOutcome.quality.codeQuality = 0.95)
    (ht12 : |r1.timestamp - r2.timestamp| ≤ 2000)
    (ht34 : |r3.timestamp - r4.timestamp| ≤ 2000) :
    (detectCollusion [r1, r2, r3, r4]).evidence.synchronizedReporting = false ∧
    2 ≤ (detectCollusion [r1, r2, r3, r4]).evidence.identicalFalseClaims ∧
    ((detectCollusion [r1, r2, r3, r4]).isCollusion = true ↔
      2 < (detectCollusion [r1, r2, r3, r4]).evidence.identicalFalseClaims) := by
  have hlen : ¬ ([r1, r2, r3, r4].length < 4) := by simp
  have hg := groupByTask_two_pairs r1 r2 r3 r4 h12 h34 h13
  have hs1 : collusionGroupSync [r1, r2] = 1 := by
    simpa [collusionGroupSync] using countSyncPairs_pair r1.timestamp r2.timestamp ht12
  have hs2 : collusionGroupSync [r3, r4] = 1 := by
    simpa [collusionGroupSync] using countSyncPairs_pair r3.timestamp r4.timestamp ht34
  have hid1 := collusionGroupIdentical_bounds [r1, r2]
    (by rw [show [r1, r2].map (·.claimedOutcome.quality.codeQuality) =
          [r1.claimedOutcome.quality.codeQuality, r2.claimedOutcome.quality.codeQuality] from rfl,
        hq1, hq2]
        exact identicalQuality_pair 0.95 (by norm_num))
  have hid2 := collusionGroupIdentical_bounds [r3, r4]
    (by rw [show [r3, r4].map (·.claimedOutcome.quality.codeQuality) =
          [r3.claimedOutcome.quality.codeQuality, r4.claimedOutcome.quality.codeQuality] from rfl,
        hq3, hq4]
        exact identicalQuality_pair 0.95 (by norm_num))
  simp only [detectCollusion, if_neg hlen, hg, List.map_cons, List.map_nil,
    List.sum_cons, List.sum_nil, List.length_cons, List.length_nil]
  norm_num [hs1, hs2]
  omega

/-- C1 counterexample: a corpus of exactly 4 reports over 2 distinct
tasks, each task group with identical `codeQuality = 0.95` and
timestamps 1000 ms apart, on which `detectCollusion` returns
`isCollusion = false` and `synchronizedReporting = false`: the two
synchronized pairs do not exceed the strict `> 2` threshold, and the two
identical-quality increments do not exceed the strict `> 2` threshold
either. -/
theorem detectCollusion_scenarioD_cex :
    (repCol1.taskId = repCol2.taskId ∧ repCol3.taskId = repCol4.taskId ∧
      repCol1.taskId ≠ repCol3.taskId) ∧
    (repCol1.claimedOutcome.quality.codeQuality = 0.95 ∧
      repCol2.claimedOutcome.quality.codeQuality = 0.95 ∧
      repCol3.claimedOutcome.quality.codeQuality = 0.95 ∧
      repCol4.claimedOutcome.quality.codeQuality = 0.95) ∧
    (|repCol1.timestamp - repCol2.timestamp| ≤ 2000 ∧
      |repCol3.timestamp - repCol4.timestamp| ≤ 2000) ∧
    (detectCollusion cexCollusionReports).isCollusion = false ∧
    (detectCollusion cexCollusionReports).evidence.synchronizedReporting = false := by
  have h13 : repCol1.taskId ≠ repCol3.taskId := by
    simp [repCol1, repCol3, baseReport]
  have hg := groupByTask_two_pairs repCol1 repCol2 repCol3 repCol4 rfl rfl h13
  have habs1 : |repCol1.timestamp - repCol2.timestamp| ≤ 2000 :=
    abs_le.mpr (by norm_num [repCol1, repCol2, baseReport])
  have habs2 : |repCol3.timestamp - repCol4.timestamp| ≤ 2000 :=
    abs_le.mpr (by norm_num [repCol3, repCol4, baseReport])
  refine ⟨⟨rfl, rfl, h13⟩, ⟨rfl, rfl, rfl, rfl⟩, ⟨habs1, habs2⟩, ?_, ?_⟩ <;>
    · show _ = _
      rw [show cexCollusionReports = [repCol1, repCol2, repCol3, repCol4] from rfl]
      simp only [detectCollusion, hg]
      norm_num [collusionGroupSync, collusionGroupIdentical, identicalQuality, sortAsc,
        insertSorted, countSyncPairs, repCol1, repCol2, repCol3, repCol4, colOutcome,
        baseReport, jsMin]

/-- C1 witness: the amended theorem applied to the Scenario D corpus. -/
theorem detectCollusion_two_sync_pairs_witness :
    repCol1.taskId = repCol2.taskId ∧
    ((detectCollusion [repCol1, repCol2, repCol3, repCol4]).evidence.synchronizedReporting = false ∧
      2 ≤ (detectCollusion [repCol1, repCol2, repCol3, repCol4]).evidence.identicalFalseClaims ∧
      ((detectCollusion [repCol1, repCol2, repCol3, repCol4]).isCollusion = true ↔
        2 < (detectCollusion [repCol1, repCol2, repCol3, repCol4]).evidence.identicalFalseClaims)) :=
  ⟨rfl,
    detectCollusion_two_sync_pairs repCol1 repCol2 repCol3 repCol4 rfl rfl
      (by simp [repCol1, repCol3, baseReport]) rfl rfl rfl rfl
      (by norm_num [repCol1, repCol2, baseReport])
      (by norm_num [repCol3, repCol4, baseReport])⟩
